import Mathlib

/-!
Shallow embedding of `FinalSQLExtremophile.py`, a single-file dashboard
over a biological research database, together with proofs about its
query-dispatch and parameterized-execution path.

The relational store and the UI toolkit are external collaborators; they
are modelled as parameters (`DB`, user-supplied widget values).  Every
definition below mirrors a concrete piece of the Python source, cited by
line number in its doc comment.
-/

namespace ExtremoDB

/-- Scalar values travelling between the app and the store.  `npInt`
models a `numpy` integer wrapper (`np.integer`), `int` a plain Python
`int`, `str` a Python string. -/
inductive Value where
  | int (n : Int)
  | npInt (n : Int)
  | str (s : String)
deriving DecidableEq, Repr

/-- A materialized query result: column names zipped with all fetched
rows (`pd.DataFrame(result, columns=columns)`, lines 37-39). -/
structure Table where
  columns : List String
  rows : List (List Value)
deriving DecidableEq, Repr

/-- The empty `pd.DataFrame()` returned on connection failure (line 28):
zero rows and zero columns. -/
def Table.empty : Table := ⟨[], []⟩

/-- The four values handed to `mysql.connector.connect` (lines 12-18). -/
structure ConnParams where
  hostname : String
  user : String
  password : String
  database : String
deriving DecidableEq, Repr

/-- The external relational store, abstracted: `connOk` says whether a
connection attempt with given parameters succeeds, `run` gives the table
produced by the engine for a SQL text with optionally bound parameters.
Both are oracles for the environment; the app's code never looks inside. -/
structure DB where
  connOk : ConnParams → Bool
  run : String → Option (List Value) → Table

/-- One `cursor.execute` call as issued to the driver: the SQL text and
the bound parameter tuple (`none` when `cursor.execute(query)` is called
without a parameter argument, line 36). -/
structure ExecCall where
  query : String
  bound : Option (List Value)
deriving DecidableEq, Repr

/-- What one `execute_query` invocation produces: the returned dataframe
and the (possibly empty) list of cursor calls actually issued. -/
structure ExecResult where
  table : Table
  calls : List ExecCall
deriving DecidableEq, Repr

/-- Function `connect_to_db` (lines 10-22): returns a handle on success, `None`
on `mysql.connector.Error`.  The handle carries no data we use, so it is
modelled as `Unit`. -/
def connect_to_db (db : DB) (cp : ConnParams) : Option Unit :=
  if db.connOk cp then some () else none

/-- The per-element conversion on line 33:
`int(p) if isinstance(p, np.integer) else p`. -/
def pyNormalize : Value → Value
  | .npInt n => .int n
  | v => v

/-- Python truthiness of the `params` argument (line 31, `if params:`):
`None` and the empty tuple are both falsy. -/
def pyTruthy : Option (List Value) → Bool
  | none => false
  | some ps => !ps.isEmpty

/-- Function `execute_query` (lines 25-42).  Connection failure short-circuits to
an empty dataframe with no cursor call; otherwise the query is executed
once, with numpy integers normalized before binding when `params` is
truthy, and all rows are fetched eagerly. -/
def execute_query (db : DB) (query : String) (cp : ConnParams)
    (params : Option (List Value) := none) : ExecResult :=
  match connect_to_db db cp with
  | none => ⟨Table.empty, []⟩
  | some _ =>
    if pyTruthy params then
      let nps := (params.getD []).map pyNormalize
      ⟨db.run query (some nps), [⟨query, some nps⟩]⟩
    else
      ⟨db.run query none, [⟨query, none⟩]⟩

/-- The fixed two-branch UNION text of `search_database` (lines 46-50). -/
def search_query : String :=
  "\n    SELECT 'Organism' as Type, Name as Result FROM Organism WHERE Name LIKE %s\n    UNION\n    SELECT 'Project' as Type, Title as Result FROM ProjectInfo WHERE Title LIKE %s\n    "

/-- Function `search_database` (lines 45-51): one call of the fixed union query
with the substring pattern bound to both branches. -/
def search_database (db : DB) (search_term : String) (cp : ConnParams) : ExecResult :=
  execute_query db search_query cp
    (some [.str ("%" ++ search_term ++ "%"), .str ("%" ++ search_term ++ "%")])

/-- Index of a column label in a dataframe, `df[...]` column lookup. -/
def colIndex (t : Table) (c : String) : Option Nat :=
  t.columns.findIdx? (fun x => x == c)

/-- Lookup `df.iloc[i][c]` as a fallible operation: `none` models the IndexError
on a missing row or the KeyError on a missing column. -/
def cellAt (t : Table) (i : Nat) (c : String) : Option Value :=
  match t.rows.get? i, colIndex t c with
  | some row, some j => row.get? j
  | _, _ => none

/-- Python `int(...)` applied to a fetched scalar; `none` models the
`ValueError`/`TypeError` raised on an unconvertible value. -/
def pyInt : Value → Option Int
  | .int n => some n
  | .npInt n => some n
  | .str s => s.toInt?

/-- SQL texts of the three Organism-Profile queries (lines 55, 57, 58-65). -/
def profile_query : String := "SELECT * FROM Organism_Profile WHERE Name = %s"

def envcond_query : String := "SELECT * FROM EnvironmentalCondition WHERE OrganismID = %s"

def projects_query : String :=
  "\n    SELECT pi.Title, pi.Description, pi.StartDate, pi.EndDate, ps.Status\n    FROM ProjectInfo pi\n    JOIN Organism_ResearchProject orp ON pi.ProjectID = orp.ProjectID\n    JOIN ProjectStatus ps ON pi.ProjectID = ps.ProjectID\n    JOIN Organism o ON orp.OrganismID = o.OrganismID\n    WHERE o.Name = %s\n    "

/-- Function `organism_profile` (lines 54-72).  Returns the three rendered tables
on success; `none` models the uncaught exception raised by
`int(organism_info.iloc[0]['OrganismID'])` (line 56) when the first
query yields no usable row.  The second component records every cursor
call issued before returning or raising. -/
def organism_profile (db : DB) (organism_name : String) (cp : ConnParams) :
    Option (Table × Table × Table) × List ExecCall :=
  let r1 := execute_query db profile_query cp (some [.str organism_name])
  match (cellAt r1.table 0 "OrganismID").bind pyInt with
  | none => (none, r1.calls)
  | some organism_id =>
    let r2 := execute_query db envcond_query cp (some [.int organism_id])
    let r3 := execute_query db projects_query cp (some [.str organism_name])
    (some (r1.table, r2.table, r3.table), r1.calls ++ r2.calls ++ r3.calls)

/-- Python `sep.join(parts)` (line 88). -/
def pyJoin (sep : String) : List String → String
  | [] => ""
  | [a] => a
  | a :: b :: t => a ++ sep ++ pyJoin sep (b :: t)

/-- The base query of the Student taxonomy view (line 86). -/
def student_base_query : String := "SELECT * FROM Student_Organism_Taxonomy_Ecosystem"

/-- Lines 87-91: the dynamic `WHERE Domain IN (...)` construction.  The
placeholder list `['%s']*len(domain_filter)` is `List.replicate`; a
non-empty (truthy) filter appends the clause and binds the selected
values in order, an empty filter runs the base query with no `params`
argument. -/
def student_taxonomy_exec (db : DB) (cp : ConnParams) (domain_filter : List String) :
    ExecResult :=
  if !domain_filter.isEmpty then
    execute_query db
      (student_base_query ++ " WHERE Domain IN (" ++
        pyJoin "," (List.replicate domain_filter.length "%s") ++ ")")
      cp (some (domain_filter.map .str))
  else
    execute_query db student_base_query cp none

/-- The Student view's selectbox options (lines 78-81), with the domain
multiselect of the first option attached. -/
inductive StudentSel where
  | taxonomy (domain_filter : List String)
  | avgTemp

/-- Function `student_view` (lines 75-106), restricted to its database traffic;
chart rendering is delegated to the excluded charting collaborator. -/
def student_view (db : DB) (cp : ConnParams) : StudentSel → ExecResult
  | .taxonomy domain_filter => student_taxonomy_exec db cp domain_filter
  | .avgTemp => execute_query db "SELECT * FROM Student_Avg_Optimum_Temp_By_Ecosystem" cp none

/-- The Researcher view's selectbox options (lines 112-117). -/
inductive ResearcherSel where
  | extremeTemp
  | fundingAquatic
  | domainEcosystem
  | tempProject

/-- Function `researcher_view` (lines 109-133): four static, parameterless queries. -/
def researcher_view (db : DB) (cp : ConnParams) : ResearcherSel → ExecResult
  | .extremeTemp =>
    execute_query db "SELECT * FROM Researcher_Extreme_Temperature_Organisms" cp none
  | .fundingAquatic =>
    execute_query db "SELECT * FROM Researcher_Funding_Aquatic_Projects" cp none
  | .domainEcosystem =>
    execute_query db "SELECT * FROM Researcher_Organisms_Projects_Domain_Ecosystem" cp none
  | .tempProject =>
    execute_query db "SELECT * FROM Researcher_Organism_Temperature_Project" cp none

/-- One row of the `Admin_High_Funded_Projects` view, with the four
columns consumed by the client-side aggregation (lines 168-173). -/
structure HFRow where
  projectTitle : String
  totalFunding : Int
  projectStatus : String
  organismName : String
deriving DecidableEq, Repr

/-- One row of the aggregated `project_summary` dataframe. -/
structure ProjSummary where
  projectTitle : String
  totalFunding : Int
  projectStatus : String
  organismCount : Nat
deriving DecidableEq, Repr

/-- Distinct values in first-occurrence order (`pandas` `.unique()`,
line 182). -/
def uniqueFirst : List String → List String
  | [] => []
  | a :: t => a :: (uniqueFirst t).filter (fun x => x != a)

/-- Lines 168-173: `df.groupby('ProjectTitle').agg({'TotalFunding':
'first', 'ProjectStatus': 'first', 'OrganismName': 'count'})`, renaming
the count column to `OrganismCount`.  Each group keeps the first row's
funding and status and counts its rows.  Groups are listed in
first-occurrence order of the title; `pandas` emits them sorted by key,
a presentation detail none of the per-group facts depend on. -/
def project_summary (rows : List HFRow) : List ProjSummary :=
  (uniqueFirst (rows.map (·.projectTitle))).map fun t =>
    let grp := rows.filter (fun r => r.projectTitle == t)
    { projectTitle := t
      totalFunding := ((grp.head?).map (·.totalFunding)).getD 0
      projectStatus := ((grp.head?).map (·.projectStatus)).getD ""
      organismCount := grp.length }

/-- The Administrator view's selectbox options (lines 139-145). -/
inductive AdminSel where
  | projectsStatusCount
  | organismsWithoutProjects
  | projectDuration
  | temperatureStats
  | highFunded

/-- Function `administrator_view` (lines 136-190), restricted to its database
traffic: each option issues one static parameterless query; the
`highFunded` option additionally runs the client-side aggregation
`project_summary` on the fetched rows before charting. -/
def administrator_view (db : DB) (cp : ConnParams) : AdminSel → ExecResult
  | .projectsStatusCount =>
    execute_query db "SELECT * FROM Admin_Projects_Status_OrganismCount" cp none
  | .organismsWithoutProjects =>
    execute_query db "SELECT * FROM Admin_Organisms_Without_Projects" cp none
  | .projectDuration =>
    execute_query db "SELECT * FROM Admin_Project_Duration_Organisms" cp none
  | .temperatureStats =>
    execute_query db "SELECT * FROM Admin_Temperature_Stats_By_Ecosystem" cp none
  | .highFunded =>
    execute_query db "SELECT * FROM Admin_High_Funded_Projects" cp none

/-- The page selector of `main` (line 226) together with the selection
state inside the chosen page.  The Organism Profiles page carries the
name picked in its organism selectbox (line 235). -/
inductive PageSel where
  | student (sel : StudentSel)
  | researcher (sel : ResearcherSel)
  | admin (sel : AdminSel)
  | profiles (organism_name : String)

/-- The user-facing widget values consumed by one run of `main`: the
three sidebar text inputs (lines 197-199), whether the Connect button
was pressed this run (line 207), the search box (line 220) and the page
selection (line 226). -/
structure Interaction where
  hostname : String
  user : String
  password : String
  connectClicked : Bool
  searchTerm : String
  page : PageSel

/-- The sidebar text-input widgets of `main`, as (label, default value)
pairs — lines 197-199.  There are exactly three; no widget asks for the
database name. -/
def main_text_inputs : List (String × String) :=
  [("Database Hostname", "https://database-final--group-4-dx7hxc44sd6lkmqvuwbrat.streamlit.app"),
   ("Database User", "root"),
   ("Database Password", "password")]

/-- Line 200: the database name is the constant `"ProjectDB"`. -/
def main_database : String := "ProjectDB"

/-- The connection parameters every `connect_to_db`/`execute_query`
call in `main` consumes: the three user-entered strings plus the
hardcoded database name. -/
def main_connParams (hostname user password : String) : ConnParams :=
  ⟨hostname, user, password, main_database⟩

/-- What the user sees below the sidebar after one run of `main`. -/
inductive Render where
  | placeholder
  | views
deriving DecidableEq, Repr

/-- Flag `st.session_state.connected` is initialized to `False` the first
time it is missing (lines 203-204). -/
def initial_connected : Bool := false

/-- Database traffic of the page dispatch (lines 228-236).  The
Organism Profiles page first fetches the organism name list (line 235)
and then runs `organism_profile` on the selected name. -/
def page_calls (db : DB) (cp : ConnParams) : PageSel → List ExecCall
  | .student sel => (student_view db cp sel).calls
  | .researcher sel => (researcher_view db cp sel).calls
  | .admin sel => (administrator_view db cp sel).calls
  | .profiles organism_name =>
    (execute_query db "SELECT Name FROM Organism" cp none).calls ++
      (organism_profile db organism_name cp).2

/-- One run of the `main` body (lines 193-238) with an explicit
connection-parameter argument, threaded into every store access.
Returns the new session flag, what is rendered, and every cursor call
issued during the run.  A Connect press re-runs `connect_to_db` and
overwrites the flag with the outcome (lines 207-215); the view area is
gated on the flag's current value (lines 218-238), and the search box
only fires on a truthy (non-empty) term (line 221). -/
def main_step_cp (db : DB) (connected : Bool) (i : Interaction) (cp : ConnParams) :
    Bool × Render × List ExecCall :=
  let connected' :=
    if i.connectClicked then (connect_to_db db cp).isSome else connected
  if connected' then
    let searchCalls :=
      if !i.searchTerm.isEmpty then (search_database db i.searchTerm cp).calls else []
    (connected', .views, searchCalls ++ page_calls db cp i.page)
  else
    (connected', .placeholder, [])

/-- One run of `main`: the connection parameters are built from the
three text inputs and the hardcoded database name (lines 197-200). -/
def main_step (db : DB) (connected : Bool) (i : Interaction) :
    Bool × Render × List ExecCall :=
  main_step_cp db connected i (main_connParams i.hostname i.user i.password)

/-- Modelled from the spec: SQL `LIKE` matching for a pattern of the
shape `%t%` (the only shape this app binds), i.e. case-insensitive
substring containment of `t`.  The relational engine evaluating `LIKE`
is an external collaborator, absent from the repository. -/
def specLike (pattern s : String) : Bool :=
  match pattern.data with
  | '%' :: rest =>
    match rest.getLast? with
    | some '%' => decide ((rest.dropLast.map Char.toLower) <:+: (s.data.map Char.toLower))
    | _ => false
  | _ => false

/-- The two base tables the search query reads. -/
structure Store where
  organismNames : List String
  projectTitles : List String

/-- Modelled from the spec: the external engine's evaluation of the
fixed two-branch search union — every organism name matching the first
bound pattern tagged `Organism`, then every project title matching the
second bound pattern tagged `Project`, all matches, no pagination. -/
def specSearchDB (store : Store) : DB where
  connOk := fun _ => true
  run := fun q ps =>
    if q = search_query then
      match ps with
      | some [Value.str p1, Value.str p2] =>
        ⟨["Type", "Result"],
          (store.organismNames.filter (fun n => specLike p1 n)).map
              (fun n => [Value.str "Organism", Value.str n]) ++
            (store.projectTitles.filter (fun t => specLike p2 t)).map
              (fun t => [Value.str "Project", Value.str t])⟩
      | _ => Table.empty
    else Table.empty

/-! Concrete store stubs used to instantiate the theorems below. -/

/-- A store stub on which every connection attempt fails. -/
def dbDown : DB := ⟨fun _ => false, fun _ _ => Table.empty⟩

/-- A store stub that accepts every connection and answers every query
with an empty table. -/
def dbEmptyOk : DB := ⟨fun _ => true, fun _ _ => Table.empty⟩

/-- A store stub whose profile lookup returns one row with
`OrganismID = 7`. -/
def dbProfile : DB :=
  ⟨fun _ => true,
   fun q _ =>
     if q = profile_query then ⟨["OrganismID", "Name"], [[.int 7, .str "Halo"]]⟩
     else Table.empty⟩

def cpTest : ConnParams := ⟨"h", "u", "p", "ProjectDB"⟩

def iTest : Interaction := ⟨"h", "u", "p", true, "", .researcher .extremeTemp⟩

def storeTest : Store := ⟨["Halobac", "Yeast"], ["Bacteria Study"]⟩

/-! Helper lemmas. -/

theorem pyNormalize_idem (v : Value) : pyNormalize (pyNormalize v) = pyNormalize v := by
  cases v <;> rfl

theorem pyNormalize_ne_npInt (v : Value) (n : Int) : pyNormalize v ≠ Value.npInt n := by
  cases v <;> simp [pyNormalize]

theorem map_pyNormalize_str (l : List String) :
    (l.map Value.str).map pyNormalize = l.map Value.str := by
  induction l with
  | nil => rfl
  | cons a t ih => simp [ih, pyNormalize]

theorem find?_eq_head?_filter {α : Type} (p : α → Bool) (l : List α) :
    l.find? p = (l.filter p).head? := by
  induction l with
  | nil => rfl
  | cons a t ih =>
    rw [List.find?_cons, List.filter_cons]
    cases hpa : p a
    · exact ih
    · rfl

theorem mem_uniqueFirst (x : String) (l : List String) : x ∈ uniqueFirst l ↔ x ∈ l := by
  induction l with
  | nil => simp [uniqueFirst]
  | cons a t ih =>
    simp only [uniqueFirst, List.mem_cons, List.mem_filter, ih, bne_iff_ne]
    constructor
    · rintro (rfl | ⟨hx, _⟩)
      · exact Or.inl rfl
      · exact Or.inr hx
    · rintro (rfl | hx)
      · exact Or.inl rfl
      · by_cases hxa : x = a
        · exact Or.inl hxa
        · exact Or.inr ⟨hx, hxa⟩

/-! Claim theorems. -/

/-- C1: if `connect_to_db` returns the failure marker `None`,
`execute_query` returns an empty table with zero rows and zero columns
and issues no cursor call at all, for every query template, connection
parameters and parameter tuple. -/
theorem execute_query_conn_failure (db : DB) (query : String) (cp : ConnParams)
    (params : Option (List Value)) (h : connect_to_db db cp = none) :
    (execute_query db query cp params).table.rows = [] ∧
    (execute_query db query cp params).table.columns = [] ∧
    (execute_query db query cp params).calls = [] := by
  simp [execute_query, h, Table.empty]

/-- Witness for C1: on a store whose every connection fails, a query
with bound parameters yields the empty table and no cursor call. -/
theorem execute_query_conn_failure_witness :
    connect_to_db dbDown cpTest = none ∧
    ((execute_query dbDown "Q" cpTest (some [Value.int 1])).table.rows = [] ∧
      (execute_query dbDown "Q" cpTest (some [Value.int 1])).table.columns = [] ∧
      (execute_query dbDown "Q" cpTest (some [Value.int 1])).calls = []) :=
  ⟨rfl, execute_query_conn_failure dbDown "Q" cpTest (some [Value.int 1]) rfl⟩

/-- C10: passing an empty tuple as `params` takes the same path as
omitting `params`: since the binding branch is guarded by truthiness,
the template is executed verbatim with no parameter binding. -/
theorem execute_query_empty_params (db : DB) (query : String) (cp : ConnParams) :
    execute_query db query cp (some []) = execute_query db query cp none ∧
    ∀ c ∈ (execute_query db query cp (some [])).calls, c.bound = none := by
  cases hc : connect_to_db db cp <;>
    simp [execute_query, hc, pyTruthy]

/-- Witness for C10 at a concrete store and query. -/
theorem execute_query_empty_params_witness :
    execute_query dbEmptyOk "Q" cpTest (some []) = execute_query dbEmptyOk "Q" cpTest none :=
  (execute_query_empty_params dbEmptyOk "Q" cpTest).1

/-- C6: every numpy-integer wrapper in the parameter tuple is converted
to a plain integer before binding — no bound tuple ever contains a
wrapper value — and binding a tuple is indistinguishable from binding
its normalized (plain-integer) equivalent. -/
theorem execute_query_normalizes (db : DB) (query : String) (cp : ConnParams)
    (ps : List Value) :
    execute_query db query cp (some (ps.map pyNormalize)) =
      execute_query db query cp (some ps) ∧
    ∀ c ∈ (execute_query db query cp (some ps)).calls, ∀ l, c.bound = some l →
      ∀ n, Value.npInt n ∉ l := by
  cases hc : connect_to_db db cp
  · simp [execute_query, hc]
  · cases ps with
    | nil => simp [execute_query, hc, pyTruthy]
    | cons a t =>
      constructor
      · simp [execute_query, hc, pyTruthy, List.map_map, Function.comp_def, pyNormalize_idem]
      · intro c hcmem l hl n hn
        have hc2 : c = ⟨query, some ((a :: t).map pyNormalize)⟩ := by
          simpa [execute_query, hc, pyTruthy] using hcmem
        rw [hc2] at hl
        have hl2 : (a :: t).map pyNormalize = l := by simpa using hl
        rw [← hl2] at hn
        rcases List.mem_map.mp hn with ⟨v, _, hv⟩
        exact pyNormalize_ne_npInt v n hv

/-- Witness for C6: binding a numpy integer produces the same call as
binding the plain integer. -/
theorem execute_query_normalizes_witness :
    execute_query dbEmptyOk "Q" cpTest (some [Value.int 5]) =
      execute_query dbEmptyOk "Q" cpTest (some [Value.npInt 5]) :=
  (execute_query_normalizes dbEmptyOk "Q" cpTest [Value.npInt 5]).1

/-- C4: when the profile lookup returns zero rows, the `OrganismID`
extraction from row 0 fails and the profile does not render — the
zero-row case never produces a rendered profile. -/
theorem organism_profile_zero_rows (db : DB) (cp : ConnParams) (name : String)
    (h : (execute_query db profile_query cp (some [.str name])).table.rows = []) :
    (organism_profile db name cp).1 = none := by
  have hcell :
      cellAt (execute_query db profile_query cp (some [.str name])).table 0 "OrganismID"
        = none := by
    unfold cellAt
    rw [h]
    rfl
  simp only [organism_profile, hcell]
  rfl

/-- Witness for C4: on a store answering every query with an empty
table, the profile of any name fails to render. -/
theorem organism_profile_zero_rows_witness :
    (execute_query dbEmptyOk profile_query cpTest (some [.str "Nessie"])).table.rows = [] ∧
    (organism_profile dbEmptyOk "Nessie" cpTest).1 = none :=
  ⟨rfl, organism_profile_zero_rows dbEmptyOk cpTest "Nessie" rfl⟩

/-- C7: when the profile lookup yields a first row whose `OrganismID`
converts to an integer, all three queries are issued in order: the
profile lookup bound to the name, the environmental-conditions query
bound to the extracted numeric id (not the name), and the project join
bound to the name; the profile renders. -/
theorem organism_profile_three_queries (db : DB) (cp : ConnParams) (name : String)
    (v : Value) (oid : Int)
    (hconn : db.connOk cp = true)
    (hcell : cellAt (execute_query db profile_query cp (some [.str name])).table 0
        "OrganismID" = some v)
    (hint : pyInt v = some oid) :
    (organism_profile db name cp).2 =
      [⟨profile_query, some [.str name]⟩,
       ⟨envcond_query, some [.int oid]⟩,
       ⟨projects_query, some [.str name]⟩] ∧
    (organism_profile db name cp).1.isSome = true := by
  have hbind : ((some v).bind fun a => pyInt a) = some oid := by simpa using hint
  simp only [organism_profile, hcell, hbind]
  simp [execute_query, connect_to_db, hconn, pyTruthy, pyNormalize]

/-- Witness for C7: a store whose profile lookup returns one row with
`OrganismID = 7` leads to the three calls, the second bound to `7`. -/
theorem organism_profile_three_queries_witness :
    cellAt (execute_query dbProfile profile_query cpTest (some [.str "Halo"])).table 0
        "OrganismID" = some (Value.int 7) ∧
    ((organism_profile dbProfile "Halo" cpTest).2 =
      [⟨profile_query, some [.str "Halo"]⟩,
       ⟨envcond_query, some [.int 7]⟩,
       ⟨projects_query, some [.str "Halo"]⟩] ∧
     (organism_profile dbProfile "Halo" cpTest).1.isSome = true) :=
  ⟨by decide,
   organism_profile_three_queries dbProfile cpTest "Halo" (Value.int 7) 7 rfl (by decide) rfl⟩

theorem pyJoin_replicate_percent_count (n : Nat) :
    ((pyJoin "," (List.replicate n "%s")).data.count '%') = n := by
  induction n with
  | zero => rfl
  | succ m ih =>
    cases m with
    | zero => rfl
    | succ k =>
      rw [List.replicate_succ, List.replicate_succ]
      show (("%s" ++ "," ++ pyJoin "," ("%s" :: List.replicate k "%s")).data.count '%') = k + 1 + 1
      rw [String.data_append, String.data_append, List.count_append, List.count_append]
      rw [← List.replicate_succ]
      rw [ih]
      have h1 : List.count '%' "%s".data = 1 := rfl
      have h2 : List.count '%' ",".data = 0 := rfl
      rw [h1, h2]
      omega

/-- C2: for the Student taxonomy query, an empty domain-filter set runs
the unfiltered base query with no bound parameters; a non-empty set
appends a `WHERE Domain IN (...)` clause whose placeholder list has one
`%s` per selected value — so the executed SQL contains exactly one `%`
character per selection — and binds exactly the selected values in
order. -/
theorem student_taxonomy_filter_sql (db : DB) (cp : ConnParams)
    (domain_filter : List String) (hconn : db.connOk cp = true) :
    (domain_filter = [] →
      (student_taxonomy_exec db cp domain_filter).calls = [⟨student_base_query, none⟩]) ∧
    (domain_filter ≠ [] →
      ∃ q,
        (student_taxonomy_exec db cp domain_filter).calls =
          [⟨q, some (domain_filter.map Value.str)⟩] ∧
        q = student_base_query ++ " WHERE Domain IN (" ++
            pyJoin "," (List.replicate domain_filter.length "%s") ++ ")" ∧
        q.data.count '%' = domain_filter.length) := by
  constructor
  · rintro rfl
    simp [student_taxonomy_exec, execute_query, connect_to_db, hconn, pyTruthy]
  · intro hne
    refine ⟨student_base_query ++ " WHERE Domain IN (" ++
      pyJoin "," (List.replicate domain_filter.length "%s") ++ ")", ?_, rfl, ?_⟩
    · have hemp : domain_filter.isEmpty = false := by
        cases domain_filter with
        | nil => exact absurd rfl hne
        | cons a t => rfl
      cases domain_filter with
      | nil => exact absurd rfl hne
      | cons a t =>
        simp [student_taxonomy_exec, execute_query, connect_to_db, hconn, pyTruthy,
          map_pyNormalize_str, pyNormalize]
    · rw [String.data_append, String.data_append, String.data_append,
        List.count_append, List.count_append, List.count_append,
        pyJoin_replicate_percent_count]
      have hb : List.count '%' student_base_query.data = 0 := rfl
      have hw : List.count '%' " WHERE Domain IN (".data = 0 := rfl
      have hp : List.count '%' ")".data = 0 := rfl
      rw [hb, hw, hp]
      omega

/-- Witness for C2: selecting two domains yields the base query with a
two-placeholder `IN` clause and the two domains bound in order. -/
theorem student_taxonomy_filter_sql_witness :
    (["Archaea", "Bacteria"] ≠ ([] : List String)) ∧
    ∃ q,
      (student_taxonomy_exec dbEmptyOk cpTest ["Archaea", "Bacteria"]).calls =
        [⟨q, some [Value.str "Archaea", Value.str "Bacteria"]⟩] ∧
      q = student_base_query ++ " WHERE Domain IN (" ++
          pyJoin "," (List.replicate 2 "%s") ++ ")" ∧
      q.data.count '%' = 2 :=
  ⟨by decide,
   (student_taxonomy_filter_sql dbEmptyOk cpTest ["Archaea", "Bacteria"] rfl).2 (by decide)⟩

/-- C3: the high-funded-projects aggregation groups rows by project
title; each group's summary keeps the first-encountered row's funding
and status and counts the group's rows; on the spec's example rows the
two groups have organism counts 2 and 1 with the first-seen funding and
status. -/
theorem admin_high_funded_grouping :
    (∀ (rows : List HFRow) (t : String) (r : HFRow),
        rows.find? (fun x => x.projectTitle == t) = some r →
        ∃ s ∈ project_summary rows,
          s.projectTitle = t ∧
          s.totalFunding = r.totalFunding ∧
          s.projectStatus = r.projectStatus ∧
          s.organismCount = rows.countP (fun x => x.projectTitle == t)) ∧
    project_summary
        [⟨"P1", 3, "Active", "OrgA"⟩, ⟨"P1", 3, "Active", "OrgB"⟩,
         ⟨"P2", 5, "Closed", "OrgC"⟩] =
      [⟨"P1", 3, "Active", 2⟩, ⟨"P2", 5, "Closed", 1⟩] := by
  constructor
  · intro rows t r hfind
    have hr_mem : r ∈ rows := List.mem_of_find?_eq_some hfind
    have hr_t : r.projectTitle = t := by
      have := List.find?_some hfind
      simpa using this
    have ht_mem : t ∈ uniqueFirst (rows.map (·.projectTitle)) := by
      rw [mem_uniqueFirst]
      exact List.mem_map.mpr ⟨r, hr_mem, hr_t⟩
    refine ⟨_, List.mem_map_of_mem _ ht_mem, rfl, ?_, ?_, ?_⟩
    · show ((rows.filter (fun x => x.projectTitle == t)).head?.map (·.totalFunding)).getD 0
        = r.totalFunding
      rw [← find?_eq_head?_filter, hfind]
      rfl
    · show ((rows.filter (fun x => x.projectTitle == t)).head?.map (·.projectStatus)).getD ""
        = r.projectStatus
      rw [← find?_eq_head?_filter, hfind]
      rfl
    · show (rows.filter (fun x => x.projectTitle == t)).length
        = rows.countP (fun x => x.projectTitle == t)
      exact (rows.countP_eq_length_filter _).symm
  · decide

/-- Witness for C3's general clause at the spec's example rows. -/
theorem admin_high_funded_grouping_witness :
    ([⟨"P1", 3, "Active", "OrgA"⟩, ⟨"P1", 3, "Active", "OrgB"⟩,
        ⟨"P2", 5, "Closed", "OrgC"⟩] : List HFRow).find?
        (fun x => x.projectTitle == "P1") = some ⟨"P1", 3, "Active", "OrgA"⟩ ∧
    ∃ s ∈ project_summary
        [⟨"P1", 3, "Active", "OrgA"⟩, ⟨"P1", 3, "Active", "OrgB"⟩,
         ⟨"P2", 5, "Closed", "OrgC"⟩],
      s.projectTitle = "P1" ∧
      s.totalFunding = (⟨"P1", 3, "Active", "OrgA"⟩ : HFRow).totalFunding ∧
      s.projectStatus = (⟨"P1", 3, "Active", "OrgA"⟩ : HFRow).projectStatus ∧
      s.organismCount =
        ([⟨"P1", 3, "Active", "OrgA"⟩, ⟨"P1", 3, "Active", "OrgB"⟩,
            ⟨"P2", 5, "Closed", "OrgC"⟩] : List HFRow).countP
          (fun x => x.projectTitle == "P1") :=
  ⟨by decide,
   admin_high_funded_grouping.1
     [⟨"P1", 3, "Active", "OrgA"⟩, ⟨"P1", 3, "Active", "OrgB"⟩,
      ⟨"P2", 5, "Closed", "OrgC"⟩] "P1" ⟨"P1", 3, "Active", "OrgA"⟩ (by decide)⟩

/-- C5: the session flag starts false; it changes only on a Connect
press, going to true exactly when the connect attempt succeeds and to
false exactly when it fails; and whenever the flag ends up false after a
run, that run issued no query against the store and rendered only the
placeholder message. -/
theorem session_flag_machine :
    initial_connected = false ∧
    (∀ (db : DB) (s : Bool) (i : Interaction),
        (main_step db s i).1 ≠ s → i.connectClicked = true) ∧
    (∀ (db : DB) (s : Bool) (i : Interaction),
        s = false → (main_step db s i).1 = true →
        i.connectClicked = true ∧
          db.connOk (main_connParams i.hostname i.user i.password) = true) ∧
    (∀ (db : DB) (s : Bool) (i : Interaction),
        s = true → (main_step db s i).1 = false →
        i.connectClicked = true ∧
          db.connOk (main_connParams i.hostname i.user i.password) = false) ∧
    (∀ (db : DB) (s : Bool) (i : Interaction),
        (main_step db s i).1 = false →
        (main_step db s i).2.1 = Render.placeholder ∧ (main_step db s i).2.2 = []) := by
  refine ⟨rfl, ?_, ?_, ?_, ?_⟩ <;>
  · intro db s i
    cases hclick : i.connectClicked <;>
      cases hok : db.connOk (main_connParams i.hostname i.user i.password) <;>
        cases s <;>
          simp [main_step, main_step_cp, connect_to_db, hclick, hok]

/-- Witness for C5: after a failed Connect press from the connected
state, the flag is false, the placeholder is shown and no query ran. -/
theorem session_flag_machine_witness :
    (main_step dbDown true iTest).1 = false ∧
    (main_step dbDown true iTest).2.1 = Render.placeholder ∧
    (main_step dbDown true iTest).2.2 = [] :=
  ⟨rfl, session_flag_machine.2.2.2.2 dbDown true iTest rfl⟩

/-- C9 counterexample: `main` exposes exactly three text inputs —
hostname, user, password — and no widget for the database name, which
is the hardcoded constant `"ProjectDB"` in every set of connection
parameters built from user input. -/
theorem main_database_not_user_supplied :
    main_text_inputs.length = 3 ∧
    main_text_inputs.map Prod.fst =
      ["Database Hostname", "Database User", "Database Password"] ∧
    main_database = "ProjectDB" ∧
    main_connParams "hostA" "alice" "pw1" =
      ⟨"hostA", "alice", "pw1", "ProjectDB"⟩ ∧
    main_connParams "hostB" "bob" "pw2" =
      ⟨"hostB", "bob", "pw2", "ProjectDB"⟩ := by
  exact ⟨rfl, rfl, rfl, rfl, rfl⟩

/-- C9 (amended): hostname, user and password are supplied by the user
each run; every connect and query call of a run consumes exactly the
connection parameters built from those three user-entered values plus
the hardcoded database name `"ProjectDB"`. -/
theorem main_conn_params_consumed (db : DB) (s : Bool) (i : Interaction) :
    main_text_inputs.map Prod.fst =
      ["Database Hostname", "Database User", "Database Password"] ∧
    main_connParams i.hostname i.user i.password =
      ⟨i.hostname, i.user, i.password, "ProjectDB"⟩ ∧
    main_step db s i =
      main_step_cp db s i (main_connParams i.hostname i.user i.password) :=
  ⟨rfl, rfl, rfl⟩

theorem specLike_percent_wrap (term s : String) :
    specLike ("%" ++ term ++ "%") s =
      decide ((term.data.map Char.toLower) <:+: (s.data.map Char.toLower)) := by
  have hd : ("%" ++ term ++ "%").data = '%' :: (term.data ++ ['%']) := by
    rw [String.data_append, String.data_append]
    rfl
  unfold specLike
  rw [hd]
  simp only [List.getLast?_concat]
  rw [List.dropLast_concat]

set_option maxRecDepth 40000 in
/-- C8: `search_database` issues exactly one call of the fixed
two-branch UNION query with the pattern `%term%` bound to both
branches, and returns the engine's full (unpaginated) result table; on
the spec-modelled engine, that result is every organism name containing
the term case-insensitively tagged `Organism`, followed by every
project title containing it tagged `Project`. -/
theorem search_database_union (db : DB) (cp : ConnParams) (term : String) (store : Store)
    (hconn : db.connOk cp = true) :
    (search_database db term cp).calls =
      [⟨search_query,
        some [.str ("%" ++ term ++ "%"), .str ("%" ++ term ++ "%")]⟩] ∧
    (search_database db term cp).table =
      db.run search_query
        (some [.str ("%" ++ term ++ "%"), .str ("%" ++ term ++ "%")]) ∧
    (search_database (specSearchDB store) term cp).table.rows =
      (store.organismNames.filter
          (fun n => decide ((term.data.map Char.toLower) <:+: (n.data.map Char.toLower)))).map
        (fun n => [Value.str "Organism", Value.str n]) ++
      (store.projectTitles.filter
          (fun t => decide ((term.data.map Char.toLower) <:+: (t.data.map Char.toLower)))).map
        (fun t => [Value.str "Project", Value.str t]) := by
  refine ⟨?_, ?_, ?_⟩
  · simp [search_database, execute_query, connect_to_db, hconn, pyTruthy, pyNormalize]
  · simp [search_database, execute_query, connect_to_db, hconn, pyTruthy, pyNormalize]
  · have hok : (specSearchDB store).connOk cp = true := rfl
    have h2 : (search_database (specSearchDB store) term cp).table =
        (specSearchDB store).run search_query
          (some [.str ("%" ++ term ++ "%"), .str ("%" ++ term ++ "%")]) := by
      simp [search_database, execute_query, connect_to_db, hok, pyTruthy, pyNormalize]
    rw [h2]
    have hrun : (specSearchDB store).run search_query
          (some [.str ("%" ++ term ++ "%"), .str ("%" ++ term ++ "%")]) =
        ⟨["Type", "Result"],
          (store.organismNames.filter (fun n => specLike ("%" ++ term ++ "%") n)).map
              (fun n => [Value.str "Organism", Value.str n]) ++
            (store.projectTitles.filter (fun t => specLike ("%" ++ term ++ "%") t)).map
              (fun t => [Value.str "Project", Value.str t])⟩ := by
      simp only [specSearchDB]
      rw [if_pos trivial]
    rw [hrun]
    simp only [specLike_percent_wrap]

/-- Witness for C8: searching for "bac" on a small spec-modelled store
returns the matching organism and project, each tagged with its type. -/
theorem search_database_union_witness :
    (search_database (specSearchDB storeTest) "bac" cpTest).table.rows =
      [[Value.str "Organism", Value.str "Halobac"],
       [Value.str "Project", Value.str "Bacteria Study"]] := by
  have h := (search_database_union (specSearchDB storeTest) cpTest "bac" storeTest rfl).2.2
  rw [h]
  decide

end ExtremoDB
